import Mathlib

-- Shallow embedding of the HALLYUSTORE catalog and order reconciliation
-- pipeline.  Sources embedded:
--   src/services/priceCalculationService.js
--   src/services/catalogService.js
--   src/services/orderService.js
--   src/mappers/orderMapper.js
--   src/middleware/shopifyWebhookValidator.js (the shopifyService part:
--     shopifyGraphqlRequest retry loop)
-- JavaScript numbers are modelled as exact rationals; NaN is modelled by the
-- none case of Option.  Remote endpoints and the persisted MongoDB store are
-- modelled by explicit environments and state passing.

-- JS Math.round: round half toward positive infinity.
def jsRound (q : ℚ) : ℤ := Int.floor (q + 1/2)

-- Rendering of a nonnegative amount of cents as a fixed-point string.
def fmtCents (c : Nat) : String :=
  toString (c / 100) ++ "." ++
    (if c % 100 < 10 then "0" ++ toString (c % 100) else toString (c % 100))

-- JS Number.prototype.toFixed(2): round to the nearest hundredth, ties toward
-- the larger value, and render with exactly two fractional digits.
def jsToFixed2 (q : ℚ) : String :=
  let cents : ℤ := jsRound (q * 100)
  if cents < 0 then "-" ++ fmtCents cents.natAbs else fmtCents cents.toNat

-- JS String.prototype.includes.
def strContains (s sub : String) : Bool :=
  sub.isEmpty || (s.splitOn sub).length > 1

-- JS parseInt(s, 10): trim, optional sign, longest decimal digit run; NaN
-- (here none) when no digits are found.
def jsParseInt (s : String) : Option Int :=
  let t := s.trim
  let sign : Int := if t.startsWith "-" then -1 else 1
  let digits := if t.startsWith "-" || t.startsWith "+" then t.drop 1 else t
  let ds := digits.takeWhile Char.isDigit
  if ds = "" then none else some (sign * (ds.toNat?.getD 0))

-- src/services/priceCalculationService.js, convertKrwToUsd (lines 16-25).
-- The typeof and isNaN guards of the source are vacuous here because the
-- argument is a genuine rational; the range guards are kept.
def convertKrwToUsd (krwAmount krwToUsdRate : ℚ) : Except String ℚ :=
  if krwAmount < 0 then .error "ValidationError: krwAmount must be a number at least 0"
  else if krwToUsdRate ≤ 0 then .error "INVALID_EXCHANGE_RATE_INTERNAL"
  else .ok (krwAmount * krwToUsdRate)

-- Configuration consumed by the pipeline (src/config), restricted to the
-- fields the embedded services read.
structure Config where
  markupPercentage : ℚ
  handlingFeeUsd : ℚ
  forceResyncAll : Bool
  filterCategoryIds : List String
  kpopKeywords : List String
  kidultKeywords : List String
  defaultVendor : String
  defaultShopifyProductType : String
  defaultLocationId : Option String
  orderIdentifierStart : String

-- src/services/priceCalculationService.js, calculateShopifyPriceUsd
-- (lines 35-72).  The exchange-rate service call getKrwToUsdRate is modelled
-- by the rate argument; the returned list names the remote call sites that
-- were reached (the rate lookup happens only after the price validation).
-- The price argument is the JS number bunjangPriceKrw, none meaning NaN.
def calculateShopifyPriceUsd (cfg : Config) (rate : Except String ℚ) (price : Option ℚ) :
    Except String String × List String :=
  match price with
  | none => (.error "ValidationError: bunjangPriceKrw must be a number at least 0", [])
  | some p =>
    if p < 0 then (.error "ValidationError: bunjangPriceKrw must be a number at least 0", [])
    else
      match rate with
      | .error e => (.error ("EXCHANGE_RATE_UNAVAILABLE_FOR_PRICE_CALC: " ++ e), ["getKrwToUsdRate"])
      | .ok r =>
        match convertKrwToUsd p r with
        | .error e => (.error e, ["getKrwToUsdRate"])
        | .ok priceInUsdBeforeMarkup =>
          let markupRatio := cfg.markupPercentage / 100
          let priceAfterMarkup := priceInUsdBeforeMarkup * (1 + markupRatio)
          let finalPriceUsd := priceAfterMarkup + cfg.handlingFeeUsd
          (.ok (jsToFixed2 finalPriceUsd), ["getKrwToUsdRate"])

-- Result of applying new Date(...) to a raw CSV cell: the cell may be absent
-- (falsy), present but unparsable (an Invalid Date), or a valid timestamp in
-- milliseconds since the epoch.
inductive DateVal
  | absent
  | invalid
  | valid (ms : Int)
deriving DecidableEq, Repr

def DateVal.toOption : DateVal → Option Int
  | .absent => none
  | .invalid => none
  | .valid ms => some ms

-- One raw CSV row as consumed by processCatalogRow
-- (src/services/catalogService.js lines 133-152).  String cells are kept as
-- strings (a missing cell is the empty string, matching the JS fallbacks of
-- the form row.x or the empty string); numeric cells carry the result of the
-- JS coercion applied by the source, with none standing for NaN:
--   quantity    = parseInt(row.quantity, 10)
--   price       = parseFloat(row.price)
--   shippingFee = parseFloat(row.shippingFee or row.shipppingFee or 0)
-- and the two date cells carry the result of new Date(...).
structure RawRow where
  pid : String
  name : String
  description : String
  quantity : Option Int
  price : Option ℚ
  shippingFee : Option ℚ
  condition : String
  saleStatus : String
  keywords : String
  images : Option String
  categoryId : String
  categoryName : String
  brandId : String
  optionsRaw : Option String
  uid : String
  updatedAt : DateVal
  createdAt : DateVal
deriving DecidableEq, Repr

-- The normalized catalog record built by processCatalogRow.
structure BunjangProduct where
  pid : String
  name : String
  description : String
  quantity : Option Int
  price : Option ℚ
  shippingFee : Option ℚ
  condition : String
  saleStatus : String
  keywords : List String
  images : Option String
  categoryId : String
  categoryName : String
  brandId : String
  optionsRaw : Option String
  uid : String
  updatedAt : Option Int
  createdAt : Option Int
deriving DecidableEq, Repr

-- src/services/catalogService.js, processCatalogRow (lines 133-184).
-- The try/catch around the date parsing nulls BOTH timestamps when EITHER
-- present date cell is unparsable (lines 154-164); the subsequent essential
-- check (line 170) then drops the row when updatedAt ended up null.
def processCatalogRow (cfg : Config) (row : RawRow) : Option BunjangProduct :=
  let pid := row.pid.trim
  let name := row.name.trim
  let saleStatus := row.saleStatus.trim.toUpper
  let categoryId := row.categoryId.trim
  let dateBroken := row.updatedAt = DateVal.invalid ∨ row.createdAt = DateVal.invalid
  let updatedAt := if dateBroken then none else row.updatedAt.toOption
  let createdAt := if dateBroken then none else row.createdAt.toOption
  if saleStatus ≠ "SELLING" then none
  else if pid = "" ∨ name = "" ∨ row.price = none ∨ updatedAt = none then none
  else if cfg.filterCategoryIds ≠ [] ∧ categoryId ≠ "" ∧ categoryId ∉ cfg.filterCategoryIds then none
  else if (match row.price with | some q => decide (q < 0) | none => false)
        || (match row.quantity with | some n => decide (n < 0) | none => false) then none
  else some {
    pid := pid, name := name,
    description := row.description.trim,
    quantity := row.quantity,
    price := row.price,
    shippingFee := row.shippingFee,
    condition := (if row.condition = "" then "USED" else row.condition).trim.toUpper,
    saleStatus := saleStatus,
    keywords := if row.keywords = "" then []
                else ((row.keywords.splitOn ",").map String.trim).filter (fun k => k ≠ ""),
    images := row.images,
    categoryId := categoryId,
    categoryName := row.categoryName.trim,
    brandId := row.brandId.trim,
    optionsRaw := row.optionsRaw,
    uid := row.uid.trim,
    updatedAt := updatedAt,
    createdAt := createdAt }

-- Variant fields produced by transformBunjangRowToShopifyInput.
structure VariantData where
  price : String
  sku : String
  inventoryPolicy : String
deriving DecidableEq, Repr

structure InventoryInfo where
  quantity : Nat
  locationId : Option String
deriving DecidableEq, Repr

-- The ProductInput payload sent to the Shopify product mutations.  The
-- publishedAt ISO timestamp (new Date().toISOString()) is modelled by the
-- numeric clock value it renders.
structure ShopifyProductInput where
  id : Option String := none
  title : String
  descriptionHtml : String
  vendor : String
  productType : String
  tags : List String
  status : String
  publishedAt : Int
deriving DecidableEq, Repr

structure TransformResult where
  productInput : ShopifyProductInput
  variantData : VariantData
  inventoryInfo : InventoryInfo
deriving DecidableEq, Repr

-- src/services/catalogService.js, transformBunjangRowToShopifyInput
-- (lines 186-255).  The options parsing block (lines 221-235) only logs and
-- has no effect on the returned value, so it is omitted.  The inner
-- parseInt(bunjangProduct.quantity, 10) re-coercion is the identity on the
-- already-parsed quantity field (an integer or NaN).
def transformBunjangRowToShopifyInput (cfg : Config) (p : BunjangProduct)
    (shopifyPriceUsd : String) (now : Int) : TransformResult :=
  let tags := ["bunjang_import", "bunjang_pid:" ++ p.pid]
  let titleLower := p.name.toLower
  let descriptionLower := p.description.toLower
  let categoryLower := p.categoryName.toLower
  let hasKeyword (kws : List String) : Bool :=
    !kws.isEmpty && kws.any (fun k =>
      strContains titleLower k || strContains descriptionLower k || strContains categoryLower k)
  let tags := if hasKeyword cfg.kpopKeywords then tags ++ ["K-Pop"] else tags
  let tags := if hasKeyword cfg.kidultKeywords then tags ++ ["Kidult"] else tags
  let variantQuantity : Nat := match p.quantity with
    | some n => n.toNat
    | none => 0
  let variantData : VariantData := {
    price := shopifyPriceUsd,
    sku := "BJ-" ++ p.pid,
    inventoryPolicy := if variantQuantity > 0 then "DENY" else "CONTINUE" }
  let inventoryInfo : InventoryInfo := {
    quantity := variantQuantity,
    locationId := cfg.defaultLocationId }
  let productInput : ShopifyProductInput := {
    title := p.name,
    descriptionHtml := if p.description = "" then "Imported from Bunjang. Product ID: " ++ p.pid
                       else p.description,
    vendor := if cfg.defaultVendor = "" then "BunjangImport" else cfg.defaultVendor,
    productType := if p.categoryName ≠ "" then p.categoryName
                   else if cfg.defaultShopifyProductType ≠ "" then cfg.defaultShopifyProductType
                   else "Uncategorized",
    tags := tags.eraseDups,
    status := "ACTIVE",
    publishedAt := now }
  { productInput := productInput, variantData := variantData, inventoryInfo := inventoryInfo }

-- Domain allow lists used by the image URL filter
-- (src/services/catalogService.js lines 455-476).
def bunjangDomains : List String := ["media.bunjang.co.kr", "img.bunjang.co.kr", "img2.bunjang.co.kr"]

def knownCdns : List String := ["cloudinary.com", "imgix.net", "amazonaws.com", "googleusercontent.com"]

def imageExts : List String := [".jpg", ".jpeg", ".png", ".gif", ".webp", ".bmp"]

-- JS String.prototype.replace with a plain-string pattern replaces only the
-- first occurrence; here the resolution placeholder is rewritten to 856.
def replaceResPlaceholder (u : String) : String :=
  match u.splitOn "\x7bres\x7d" with
  | [] => u
  | [_] => u
  | a :: rest => a ++ "856" ++ String.intercalate "\x7bres\x7d" rest

-- Hostname and pathname of an https URL, modelling new URL(...) for the
-- well-formed URLs this pipeline sees: the authority runs to the first
-- slash, question mark or hash; userinfo and port are stripped from the
-- hostname; the pathname runs from that point to the query or fragment.
def extractHostAndPath (u : String) : String × String :=
  let rest := u.drop 8
  let authority := rest.takeWhile (fun c => c ≠ '/' && c ≠ '?' && c ≠ '#')
  let afterAuthority := rest.drop authority.length
  let host0 := ((authority.splitOn "@").getLastD authority)
  let hostname := ((host0.splitOn ":").headD host0)
  let pathname := afterAuthority.takeWhile (fun c => c ≠ '?' && c ≠ '#')
  (hostname, pathname)

-- src/services/catalogService.js, processImageUrl (lines 437-483).
def processImageUrl (url : String) : Option String :=
  if url = "" then none
  else
    let u := url.trim
    let u := if u.startsWith "http://" then "https://" ++ u.drop 7 else u
    let u := replaceResPlaceholder u
    if !u.startsWith "https://" then none
    else
      let hp := extractHostAndPath u
      if hp.1 = "" then none
      else if bunjangDomains.any (fun d => strContains hp.1 d) then some u
      else if imageExts.any (fun e => hp.2.toLower.endsWith e) then some u
      else if knownCdns.any (fun c => strContains hp.1 c) then some u
      else none

-- One CreateMediaInput item for productCreateMedia.
structure MediaInput where
  originalSource : String
  mediaContentType : String
  alt : String
deriving DecidableEq, Repr

-- src/services/catalogService.js, media input construction (lines 431-517).
-- Catalog rows always carry the images cell as a CSV string, so only the
-- string branch (lines 485-500) is reachable from this pipeline.
def buildMediaInputs (p : BunjangProduct) : List MediaInput :=
  let alt := if p.name = "" then "Product image" else p.name.take 250
  match p.images with
  | none => []
  | some s =>
    if s.trim = "" then []
    else (((s.splitOn ",").map String.trim).filterMap processImageUrl).map
      (fun u => { originalSource := u, mediaContentType := "IMAGE", alt := alt })

-- The persisted SyncedProduct document (src/models/syncedProduct.model),
-- restricted to the fields this pipeline reads and writes.  Timestamps are
-- milliseconds since the epoch.
structure SyncedDoc where
  bunjangPid : String
  syncStatus : String
  bunjangUpdatedAt : Option Int
  bunjangProductName : Option String
  bunjangOriginalPriceKrw : Option ℚ
  bunjangOriginalShippingFeeKrw : Option ℚ
  shopifyGid : Option String
  shopifyProductId : Option String
  shopifyHandle : Option String
  shopifyListedPriceUsd : Option String
  syncAttemptCount : Nat
  syncSuccessCount : Nat
  syncErrorMessage : Option String
  createdAt : Option Int
  lastSyncAttemptAt : Option Int
  lastSuccessfulSyncAt : Option Int
deriving DecidableEq, Repr

-- The single variant node returned by the getProduct variants query
-- (src/services/catalogService.js lines 328-355); present only when the
-- first edge exists and carries an id.
structure VariantNode where
  id : String
  inventoryItemId : Option String
deriving DecidableEq, Repr

-- Result of the Shopify productCreate and productUpdate mutations as
-- consumed by the sync: the product id may be missing (checked at line 427).
structure ProductResult where
  id : Option String
  handle : String
deriving DecidableEq, Repr

-- Payload of shopifyService.updateProductVariant.
structure VariantUpdateData where
  id : String
  price : String
  sku : String
  inventoryPolicy : String
deriving DecidableEq, Repr

-- Variant info passed as third argument to shopifyService.createProduct
-- (src/services/catalogService.js lines 411-417).
structure VariantInfo where
  price : String
  sku : String
  inventoryPolicy : String
  quantity : Nat
  locationId : Option String
deriving DecidableEq, Repr

-- Remote endpoints reached by one record sync, modelled as response
-- oracles.  An Except.error models a thrown or rejected call.
structure SyncEnv where
  rate : Except String ℚ
  tagLookup : String → Except String (Option String)
  variantQuery : String → Except String (Option VariantNode)
  updateProduct : ShopifyProductInput → Except String ProductResult
  updateVariant : VariantUpdateData → Except String Unit
  updateInventory : String → String → Nat → Except String Unit
  createProduct : ShopifyProductInput → VariantInfo → Except String ProductResult
  appendMedia : String → List MediaInput → Except String Unit

-- Events a record sync performs, in order: writes to the sync state store
-- and remote calls.
inductive SyncEvent
  | attemptWrite
  | remoteCall (name : String)
  | outcomeWrite (status : String)
deriving DecidableEq, Repr

-- src/services/catalogService.js lines 263-281: the unconditional attempt
-- upsert.  On an existing document the $set fields are overwritten and the
-- attempt counter incremented; on insert the $setOnInsert fields create the
-- record with status PENDING (the $inc still applies, so the counter is 1).
def upsertAttempt (now : Int) (p : BunjangProduct) : Option SyncedDoc → SyncedDoc
  | some d =>
    { d with
      lastSyncAttemptAt := some now,
      bunjangProductName := some p.name,
      bunjangUpdatedAt := p.updatedAt,
      bunjangOriginalPriceKrw := p.price,
      bunjangOriginalShippingFeeKrw := p.shippingFee,
      syncAttemptCount := d.syncAttemptCount + 1 }
  | none =>
    { bunjangPid := p.pid,
      syncStatus := "PENDING",
      bunjangUpdatedAt := p.updatedAt,
      bunjangProductName := some p.name,
      bunjangOriginalPriceKrw := p.price,
      bunjangOriginalShippingFeeKrw := p.shippingFee,
      shopifyGid := none,
      shopifyProductId := none,
      shopifyHandle := none,
      shopifyListedPriceUsd := none,
      syncAttemptCount := 1,
      syncSuccessCount := 0,
      syncErrorMessage := none,
      createdAt := some now,
      lastSyncAttemptAt := some now,
      lastSuccessfulSyncAt := none }

-- src/services/catalogService.js lines 283-287: the skip-unchanged test on
-- the re-read document, requiring status SYNCED, both timestamps present,
-- stored timestamp at least the feed timestamp, and no global force flag.
def shouldSkipUnchanged (doc : SyncedDoc) (feedTs : Option Int) (force : Bool) : Bool :=
  (doc.syncStatus == "SYNCED") &&
  (match feedTs, doc.bunjangUpdatedAt with
   | some t, some s => decide (t ≤ s)
   | _, _ => false) &&
  !force

-- src/services/catalogService.js lines 292-304: resolve the Shopify GID,
-- preferring the stored one and falling back to a tag search whose failure
-- is tolerated (the record proceeds as not found).
def resolveShopifyGid (env : SyncEnv) (docGid : Option String) (pid : String) :
    Option String × List String :=
  match docGid with
  | some g => (some g, [])
  | none =>
    if pid = "" then (none, [])
    else
      match env.tagLookup pid with
      | .ok r => (r, ["findProductByBunjangPidTag"])
      | .error _ => (none, ["findProductByBunjangPidTag"])

-- src/services/catalogService.js lines 306-542: the try block of one record
-- sync.  Returns the successful (product id, handle, listed price) or the
-- thrown error message, together with the names of the remote calls made, in
-- order.  Tolerated failures (variant query, variant update, inventory
-- update, media attach) keep going; price calculation, product
-- create/update and a missing returned product id throw.
def syncTryPhase (cfg : Config) (env : SyncEnv) (now : Int) (p : BunjangProduct)
    (gid? : Option String) : Except String (String × String × String) × List String :=
  let priceStep := calculateShopifyPriceUsd cfg env.rate p.price
  match priceStep.1 with
  | .error e => (.error e, priceStep.2)
  | .ok shopifyPriceString =>
    let calls0 := priceStep.2
    let tr := transformBunjangRowToShopifyInput cfg p shopifyPriceString now
    let afterProduct : Except String ProductResult × List String :=
      match gid? with
      | some gid =>
        let vq := env.variantQuery gid
        let existingVariant := match vq with
          | .ok v => v
          | .error _ => none
        let calls1 := calls0 ++ ["getProductVariants"]
        match env.updateProduct { tr.productInput with id := some gid } with
        | .error e => (.error e, calls1 ++ ["updateProduct"])
        | .ok res =>
          let calls2 := calls1 ++ ["updateProduct"]
          match existingVariant with
          | none => (.ok res, calls2)
          | some v =>
            match env.updateVariant
              { id := v.id, price := tr.variantData.price, sku := tr.variantData.sku,
                inventoryPolicy := tr.variantData.inventoryPolicy } with
            | .error _ => (.ok res, calls2 ++ ["updateProductVariant"])
            | .ok _ =>
              match v.inventoryItemId, tr.inventoryInfo.locationId with
              | some iid, some loc =>
                match env.updateInventory iid loc tr.inventoryInfo.quantity with
                | .ok _ => (.ok res, calls2 ++ ["updateProductVariant", "updateInventoryLevel"])
                | .error _ => (.ok res, calls2 ++ ["updateProductVariant", "updateInventoryLevel"])
              | _, _ => (.ok res, calls2 ++ ["updateProductVariant"])
      | none =>
        let variantInfo : VariantInfo := {
          price := tr.variantData.price, sku := tr.variantData.sku,
          inventoryPolicy := tr.variantData.inventoryPolicy,
          quantity := tr.inventoryInfo.quantity,
          locationId := tr.inventoryInfo.locationId }
        match env.createProduct tr.productInput variantInfo with
        | .error e => (.error e, calls0 ++ ["createProduct"])
        | .ok res => (.ok res, calls0 ++ ["createProduct"])
    match afterProduct.1 with
    | .error e => (.error e, afterProduct.2)
    | .ok res =>
      match res.id with
      | none => (.error "Shopify API did not return a valid product ID after create/update.",
                 afterProduct.2)
      | some productGid =>
        let media := (buildMediaInputs p).take 250
        if media.isEmpty then
          (.ok (productGid, res.handle, shopifyPriceString), afterProduct.2)
        else
          match env.appendMedia productGid media with
          | .ok _ => (.ok (productGid, res.handle, shopifyPriceString),
                      afterProduct.2 ++ ["appendMediaToProduct"])
          | .error _ => (.ok (productGid, res.handle, shopifyPriceString),
                         afterProduct.2 ++ ["appendMediaToProduct"])

-- src/services/catalogService.js lines 544-558: the SYNCED outcome write.
def recordSynced (d : SyncedDoc) (productGid handle priceString : String)
    (feedTs : Option Int) (now : Int) : SyncedDoc :=
  { d with
    shopifyGid := some productGid,
    shopifyProductId := some ((productGid.splitOn "/").getLastD ""),
    shopifyHandle := some handle,
    lastSuccessfulSyncAt := some now,
    syncStatus := "SYNCED",
    syncErrorMessage := none,
    shopifyListedPriceUsd := some priceString,
    bunjangUpdatedAt := feedTs,
    syncAttemptCount := 0,
    syncSuccessCount := d.syncSuccessCount + 1 }

-- src/services/catalogService.js lines 573-581: the ERROR outcome write.
def recordError (d : SyncedDoc) (errMsg : String) (resolvedGid : Option String)
    (feedTs : Option Int) : SyncedDoc :=
  { d with
    syncStatus := "ERROR",
    syncErrorMessage := some (errMsg.take 1000),
    bunjangUpdatedAt := feedTs,
    shopifyGid := match resolvedGid with
      | some g => some g
      | none => d.shopifyGid }

-- Result of one record sync: the status string returned to the batch, the
-- state of the persisted document afterwards, and the ordered event trace.
structure SyncRun where
  result : String
  newDoc : SyncedDoc
  trace : List SyncEvent
deriving Repr

-- src/services/catalogService.js, syncBunjangProductToShopify
-- (lines 257-584): attempt upsert, skip-unchanged test, GID resolution,
-- try phase, and the outcome write of SYNCED on success or ERROR on a
-- thrown failure.  The transformResult null guard of line 310 is statically
-- dead because transformBunjangRowToShopifyInput always returns a populated
-- object, so the skipped_filter outcome cannot occur here.
def syncBunjangProductToShopify (cfg : Config) (env : SyncEnv) (now : Int)
    (p : BunjangProduct) (store : Option SyncedDoc) : SyncRun :=
  let doc1 := upsertAttempt now p store
  if shouldSkipUnchanged doc1 p.updatedAt cfg.forceResyncAll then
    { result := "skipped_no_change", newDoc := doc1, trace := [.attemptWrite] }
  else
    let resolved := resolveShopifyGid env doc1.shopifyGid p.pid
    let phase := syncTryPhase cfg env now p resolved.1
    match phase.1 with
    | .ok data =>
      { result := "success",
        newDoc := recordSynced doc1 data.1 data.2.1 data.2.2 p.updatedAt now,
        trace := .attemptWrite :: ((resolved.2 ++ phase.2).map .remoteCall)
                   ++ [.outcomeWrite "SYNCED"] }
    | .error e =>
      { result := "error",
        newDoc := recordError doc1 e resolved.1 p.updatedAt,
        trace := .attemptWrite :: ((resolved.2 ++ phase.2).map .remoteCall)
                   ++ [.outcomeWrite "ERROR"] }

-- Batch summary (src/services/catalogService.js lines 653-661 and the
-- zero-valid-record early return of line 614).
structure CatalogSyncSummary where
  totalOriginalCsvRows : Nat
  validProductsToProcess : Nat
  successfullyProcessed : Nat
  errors : Nat
  skippedByFilter : Nat
  skippedNoChange : Nat
deriving DecidableEq, Repr

-- Running counters of the chunk loop (lines 617-620).
structure SyncCounts where
  successes : Nat
  errors : Nat
  skippedFilter : Nat
  skippedNoChange : Nat
deriving DecidableEq, Repr

-- src/services/catalogService.js lines 633-643: classify one settled record
-- result into the counters.
def tallyResult (status : String) (c : SyncCounts) : SyncCounts :=
  if status == "success" then { c with successes := c.successes + 1 }
  else if status == "skipped_filter" then { c with skippedFilter := c.skippedFilter + 1 }
  else if status == "skipped_no_change" then { c with skippedNoChange := c.skippedNoChange + 1 }
  else if status == "error" then { c with errors := c.errors + 1 }
  else c

-- The sync state store keyed by Bunjang PID.
def SyncStore := String → Option SyncedDoc

def SyncStore.put (s : SyncStore) (pid : String) (d : SyncedDoc) : SyncStore :=
  fun k => if k = pid then some d else s k

-- src/services/catalogService.js lines 622-645: process the valid records.
-- The source runs them in concurrency groups of config.bunjang.syncConcurrency
-- and awaits every settled result of a group before the next group starts;
-- records with different PIDs touch disjoint store keys, so the grouped
-- execution is modelled by sequential processing in input order (concurrent
-- attempts on the same key are documented in the spec as unsynchronized,
-- last writer wins).
def syncProducts (cfg : Config) (env : String → SyncEnv) (now : Int) :
    List BunjangProduct → SyncStore → SyncCounts × SyncStore
  | [], store => ({ successes := 0, errors := 0, skippedFilter := 0, skippedNoChange := 0 }, store)
  | p :: rest, store =>
    let run := syncBunjangProductToShopify cfg (env p.pid) now p (store p.pid)
    let store := store.put p.pid run.newDoc
    let r := syncProducts cfg env now rest store
    (tallyResult run.result r.1, r.2)

-- src/services/catalogService.js, fetchAndProcessBunjangCatalog
-- (lines 586-664), from the point where the downloaded CSV rows are in hand:
-- normalize and filter every row, return the no-op summary when nothing
-- valid remains (lines 611-615), otherwise sync each record and report the
-- counts (lines 617-663).
def fetchAndProcessBunjangCatalogCore (cfg : Config) (env : String → SyncEnv) (now : Int)
    (rows : List RawRow) (store : SyncStore) : CatalogSyncSummary × SyncStore :=
  let products := rows.filterMap (processCatalogRow cfg)
  if products.isEmpty then
    ({ totalOriginalCsvRows := rows.length, validProductsToProcess := 0,
       successfullyProcessed := 0, errors := 0, skippedByFilter := 0, skippedNoChange := 0 },
     store)
  else
    let r := syncProducts cfg env now products store
    ({ totalOriginalCsvRows := rows.length,
       validProductsToProcess := products.length,
       successfullyProcessed := r.1.successes,
       errors := r.1.errors,
       skippedByFilter := r.1.skippedFilter,
       skippedNoChange := r.1.skippedNoChange },
     r.2)

-- Retry layer: src/middleware/shopifyWebhookValidator.js part
-- shopifyService.shopifyGraphqlRequest (lines 395-460).

-- A GraphqlQueryError thrown by the Shopify client: HTTP status code when a
-- response exists, the error message, and the parsed retry-after header in
-- seconds (none when the header is absent or parseInt gives NaN).
structure GraphqlQueryErr where
  statusCode : Option Nat
  message : String
  retryAfterSeconds : Option Int
deriving DecidableEq, Repr

-- Outcome of one client.query attempt, covering the branches of the
-- try/catch: a clean body, a body carrying GraphQL user errors (thrown as an
-- ExternalServiceError, line 416), a GraphqlQueryError, an already-classified
-- AppError or ExternalServiceError rethrown as is (line 452), and an
-- unexpected system error (line 455).
inductive AttemptOutcome
  | okNoErrors
  | okUserErrors
  | gqlError (e : GraphqlQueryErr)
  | appError (msg : String)
  | unexpectedError (msg : String)

-- Line 426: status 429 or a message containing the throttled marker.
def isThrottledErr (e : GraphqlQueryErr) : Bool :=
  (e.statusCode == some 429) || strContains e.message.toLower "throttled"

-- Line 427: any 5xx status.
def isServerErr (e : GraphqlQueryErr) : Bool :=
  match e.statusCode with
  | some s => decide (500 ≤ s) && decide (s ≤ 599)
  | none => false

def retryClassify (e : GraphqlQueryErr) : Bool := isThrottledErr e || isServerErr e

-- Lines 436-444: exponential backoff with symmetric jitter of fraction 0.3,
-- floored at 1000 ms, raised to retry-after seconds times 1000 plus a 500 ms
-- margin when the throttled response carries the header.  rand is the
-- Math.random() draw in the interval from 0 to 1.
def computeRetryDelay (initialDelay : ℚ) (attempt : Nat) (rand : ℚ) (e : GraphqlQueryErr) : ℚ :=
  let base := initialDelay * 2 ^ attempt
  let jitter := base * (3/10) * (rand * 2 - 1)
  let d : ℚ := max 1000 ((jsRound (base + jitter) : ℤ) : ℚ)
  if isThrottledErr e then
    match e.retryAfterSeconds with
    | some s => max d ((s : ℚ) * 1000 + 500)
    | none => d
  else d

inductive RetryOutcome
  | success (attemptIndex : Nat)
  | fatal (reason : String) (attemptIndex : Nat)
deriving DecidableEq, Repr

structure RetryRun where
  outcome : RetryOutcome
  delays : List ℚ
deriving DecidableEq, Repr

-- Lines 403-459: the attempt loop.  env gives the outcome of each attempt,
-- rand the jitter draws.  A retryable GraphqlQueryError with attempts left
-- sleeps for the computed delay and continues; everything else terminates
-- immediately.  The fuel argument is maxRetries plus 1 minus the attempt
-- index, so the zero-fuel case is the dead fall-through after the loop.
def goShopifyRetry (env : Nat → AttemptOutcome) (rand : Nat → ℚ)
    (maxRetries : Nat) (initialDelay : ℚ) :
    Nat → Nat → List ℚ → RetryRun
  | 0, attempt, delays =>
    { outcome := .fatal "Shopify API request failed after all retries" attempt, delays := delays }
  | fuel + 1, attempt, delays =>
    match env attempt with
    | .okNoErrors => { outcome := .success attempt, delays := delays }
    | .okUserErrors => { outcome := .fatal "SHOPIFY_GQL_USER_ERRORS" attempt, delays := delays }
    | .appError m => { outcome := .fatal m attempt, delays := delays }
    | .unexpectedError m =>
      { outcome := .fatal ("Unexpected system error during Shopify API call: " ++ m) attempt,
        delays := delays }
    | .gqlError e =>
      if attempt < maxRetries ∧ retryClassify e = true then
        goShopifyRetry env rand maxRetries initialDelay fuel (attempt + 1)
          (delays ++ [computeRetryDelay initialDelay attempt (rand attempt) e])
      else
        { outcome := .fatal "ExternalServiceError: Shopify API request failed" attempt,
          delays := delays }

def shopifyGraphqlRequestRun (env : Nat → AttemptOutcome) (rand : Nat → ℚ)
    (maxRetries : Nat) (initialDelay : ℚ) : RetryRun :=
  goShopifyRetry env rand maxRetries initialDelay (maxRetries + 1) 0 []

-- Order side: src/mappers/orderMapper.js and src/services/orderService.js.

-- A loosely typed JS value for the price fields of a Bunjang product detail
-- response: the field may be missing, a non-numeric value (parseInt NaN), or
-- an integer number.
inductive JsVal
  | undef
  | nan
  | num (n : Int)
deriving DecidableEq, Repr

-- parseInt applied to such a field: integers are untouched, everything else
-- is NaN.
def JsVal.parseIntVal : JsVal → Option Int
  | .num n => some n
  | _ => none

-- Bunjang product details as returned by getBunjangProductDetails (null on
-- not-found or any lookup failure, per src bunjangService lines 261-287).
structure BunjangDetails where
  price : JsVal
  shippingFee : JsVal
deriving DecidableEq, Repr

structure BunjangOrderProduct where
  id : Option Int
  price : Int
deriving DecidableEq, Repr

-- Payload of the Bunjang Create Order V2 API.
structure BunjangOrderPayload where
  product : BunjangOrderProduct
  deliveryPrice : Int
deriving DecidableEq, Repr

-- src/mappers/orderMapper.js, mapShopifyItemToBunjangOrderPayload
-- (lines 18-66).  The mapper validates its inputs and the detail prices,
-- then builds the payload with deliveryPrice set to 0 (line 54): the
-- zero-shipping policy is applied inside the mapper, the parsed actual
-- shipping fee is validated but not placed anywhere in the payload.
structure ShopifyLineItem where
  sku : Option String
deriving DecidableEq, Repr

def mapShopifyItemToBunjangOrderPayload (item : Option ShopifyLineItem) (bunjangPid : String)
    (details : Option BunjangDetails) : Except String BunjangOrderPayload :=
  match item, details with
  | some _, some d =>
    if bunjangPid = "" then .error "ValidationError: missing mapping data"
    else
      match d.price, d.shippingFee with
      | .undef, _ => .error "BUNJANG_PRODUCT_DATA_INCOMPLETE"
      | _, .undef => .error "BUNJANG_PRODUCT_DATA_INCOMPLETE"
      | pr, sf =>
        match pr.parseIntVal with
        | none => .error "ValidationError: invalid Bunjang price"
        | some currentBunjangPriceKrw =>
          if currentBunjangPriceKrw < 0 then .error "ValidationError: invalid Bunjang price"
          else
            match sf.parseIntVal with
            | none => .error "ValidationError: invalid Bunjang shipping fee"
            | some currentBunjangShippingFeeKrw =>
              if currentBunjangShippingFeeKrw < 0 then
                .error "ValidationError: invalid Bunjang shipping fee"
              else
                .ok { product := { id := jsParseInt bunjangPid, price := currentBunjangPriceKrw },
                      deliveryPrice := 0 }
  | _, _ => .error "ValidationError: missing mapping data"

structure OrderMetafield where
  mfNamespace : String
  key : String
  value : String
  mfType : String
deriving DecidableEq, Repr

-- Payload of shopifyService.updateOrder.
structure OrderUpdateInput where
  id : String
  tags : List String
  metafields : List OrderMetafield
deriving DecidableEq, Repr

structure CreateOrderResp where
  id : Option Int
deriving DecidableEq, Repr

-- Remote endpoints reached by the order reconciler.
structure OrderEnv where
  getDetails : String → Option BunjangDetails
  createOrder : BunjangOrderPayload → Except String CreateOrderResp
  updateOrder : OrderUpdateInput → Except String Unit

structure ShopifyOrder where
  id : Option Int
  adminGraphqlApiId : Option String
  lineItems : List ShopifyLineItem
deriving DecidableEq, Repr

structure OrderRunResult where
  success : Bool
  bunjangOrderIds : List String
  orderUpdateCalls : List OrderUpdateInput
  createOrderCalls : List BunjangOrderPayload
deriving DecidableEq, Repr

-- src/services/orderService.js lines 120-126: the per-item catch block tags
-- the Shopify order with an Exception marker; a failure of that tag write is
-- not caught and propagates out of the whole function.
def itemCatchUpdate (env : OrderEnv) (ident gid pid : String) (created : Option Int)
    (calls : List OrderUpdateInput) (creates : List BunjangOrderPayload) :
    Except String (Option Int × List OrderUpdateInput × List BunjangOrderPayload) :=
  let upd : OrderUpdateInput :=
    { id := gid, tags := [ident ++ "_Error", "PID-" ++ pid ++ "-Exception"], metafields := [] }
  match env.updateOrder upd with
  | .ok _ => .ok (created, calls ++ [upd], creates)
  | .error e => .error e

-- src/services/orderService.js lines 53-126: processing of one
-- Bunjang-linked line item.  Returns the created Bunjang order id (if any)
-- and the Shopify order update calls and Bunjang create-order calls made.
-- The not-found lookup is non-fatal: the order is tagged and the item
-- skipped.  The created order id is pushed before the tag/metafield write,
-- so a failing success-write still leaves the id recorded (lines 86-99).
def processOneLinkedItem (env : OrderEnv) (ident gid pid : String) (item : ShopifyLineItem) :
    Except String (Option Int × List OrderUpdateInput × List BunjangOrderPayload) :=
  match env.getDetails pid with
  | none =>
    let upd : OrderUpdateInput :=
      { id := gid, tags := [ident ++ "_Error", "PID-" ++ pid ++ "-NotFound"], metafields := [] }
    match env.updateOrder upd with
    | .ok _ => .ok (none, [upd], [])
    | .error _ => itemCatchUpdate env ident gid pid none [upd] []
  | some details =>
    match mapShopifyItemToBunjangOrderPayload (some item) pid (some details) with
    | .error _ => itemCatchUpdate env ident gid pid none [] []
    | .ok payload0 =>
      let actualBunjangShippingFeeKrw := payload0.deliveryPrice
      let payload := { payload0 with deliveryPrice := 0 }
      match env.createOrder payload with
      | .error _ => itemCatchUpdate env ident gid pid none [] [payload]
      | .ok resp =>
        match resp.id with
        | some bunjangOrderId =>
          let upd : OrderUpdateInput :=
            { id := gid,
              tags := ["BunjangOrderPlaced", ident, "BunjangOrderID-" ++ toString bunjangOrderId],
              metafields := [
                { mfNamespace := "bunjang", key := "order_id",
                  value := toString bunjangOrderId, mfType := "single_line_text_field" },
                { mfNamespace := "bunjang", key := "ordered_pid",
                  value := pid, mfType := "single_line_text_field" },
                { mfNamespace := "bunjang", key := "ordered_item_price_krw",
                  value := toString payload.product.price, mfType := "number_integer" },
                { mfNamespace := "bunjang", key := "api_sent_shipping_fee_krw",
                  value := toString payload.deliveryPrice, mfType := "number_integer" },
                { mfNamespace := "bunjang", key := "actual_bunjang_shipping_fee_krw",
                  value := toString actualBunjangShippingFeeKrw, mfType := "number_integer" } ] }
          match env.updateOrder upd with
          | .ok _ => .ok (some bunjangOrderId, [upd], [payload])
          | .error _ => itemCatchUpdate env ident gid pid (some bunjangOrderId) [upd] [payload]
        | none =>
          let upd : OrderUpdateInput :=
            { id := gid, tags := [ident ++ "_Error", "PID-" ++ pid ++ "-CreateRespFail"],
              metafields := [] }
          match env.updateOrder upd with
          | .ok _ => .ok (none, [upd], [payload])
          | .error _ => itemCatchUpdate env ident gid pid none [upd] [payload]

-- src/services/orderService.js lines 44-127: the line item loop.  Items
-- without the BJ- SKU marker are skipped; the success flag is set and the id
-- list extended exactly when an item produced a Bunjang order.
def processOrderItems (env : OrderEnv) (ident gid : String) :
    List ShopifyLineItem → Bool → List String → List OrderUpdateInput →
    List BunjangOrderPayload →
    Except String (Bool × List String × List OrderUpdateInput × List BunjangOrderPayload)
  | [], flag, ids, calls, creates => .ok (flag, ids, calls, creates)
  | item :: rest, flag, ids, calls, creates =>
    match item.sku with
    | none => processOrderItems env ident gid rest flag ids calls creates
    | some sku =>
      if !sku.startsWith "BJ-" then processOrderItems env ident gid rest flag ids calls creates
      else
        match processOneLinkedItem env ident gid (sku.drop 3) item with
        | .error e => .error e
        | .ok step =>
          processOrderItems env ident gid rest
            (flag || step.1.isSome)
            (ids ++ (step.1.map toString).toList)
            (calls ++ step.2.1)
            (creates ++ step.2.2)

-- src/services/orderService.js, processShopifyOrderForBunjang
-- (lines 19-138): validation of the inbound order, the item loop, and the
-- overall result whose success flag reports whether any Bunjang order was
-- created.
def processShopifyOrderForBunjang (cfg : Config) (env : OrderEnv) (order : ShopifyOrder) :
    Except String OrderRunResult :=
  match order.id, order.adminGraphqlApiId with
  | some oid, some gid =>
    if order.lineItems.isEmpty then
      .error "ValidationError: order data invalid or missing line items"
    else
      match processOrderItems env (cfg.orderIdentifierStart ++ toString oid) gid
          order.lineItems false [] [] [] with
      | .error e => .error e
      | .ok r =>
        .ok { success := r.1, bunjangOrderIds := r.2.1,
              orderUpdateCalls := r.2.2.1, createOrderCalls := r.2.2.2 }
  | _, _ => .error "ValidationError: order data invalid or missing line items"

-- Spec-side definitions, written from the wording of the specification for
-- comparison against the code-side definitions above.

-- Modelled from the spec wording of the normalizer drop conditions (spec 4.3
-- and claim C6): sale-status not SELLING; a required field (external ID,
-- name, numeric price, valid last-updated timestamp) missing or malformed;
-- price or quantity negative; a non-empty category allow-list not containing
-- the row category.
def specDropCondition (cfg : Config) (row : RawRow) : Bool :=
  (row.saleStatus.trim.toUpper != "SELLING") ||
  (row.pid.trim == "") || (row.name.trim == "") || (row.price == none) ||
  (row.updatedAt.toOption == none) ||
  (match row.price with | some q => decide (q < 0) | none => false) ||
  (match row.quantity with | some n => decide (n < 0) | none => false) ||
  (!cfg.filterCategoryIds.isEmpty && !cfg.filterCategoryIds.contains (row.categoryId.trim))

-- Modelled from the spec wording of claim C2: the Shopify inventory policy
-- that denies backorders (no selling when out of stock) is DENY; CONTINUE
-- allows backorders.
def inventoryPolicyDeniesBackorder (policy : String) : Bool := policy == "DENY"

-- The drop condition the code actually implements, spelled out as a single
-- disjunction: a date-parse failure of either timestamp cell nulls both
-- timestamps, and the category allow-list applies only to rows with a
-- non-empty category id.
def codeDropCondition (cfg : Config) (row : RawRow) : Bool :=
  let dateBroken := (row.updatedAt == DateVal.invalid) || (row.createdAt == DateVal.invalid)
  let effUpdatedAt := if dateBroken then none else row.updatedAt.toOption
  (row.saleStatus.trim.toUpper != "SELLING") ||
  (row.pid.trim == "") || (row.name.trim == "") || (row.price == none) ||
  (effUpdatedAt == none) ||
  (!cfg.filterCategoryIds.isEmpty && row.categoryId.trim != "" &&
     !cfg.filterCategoryIds.contains (row.categoryId.trim)) ||
  (match row.price with | some q => decide (q < 0) | none => false) ||
  (match row.quantity with | some n => decide (n < 0) | none => false)

-- Concrete fixtures used by witnesses and counterexamples.

def cfg0 : Config :=
  { markupPercentage := 20, handlingFeeUsd := 2, forceResyncAll := false,
    filterCategoryIds := [], kpopKeywords := [], kidultKeywords := [],
    defaultVendor := "", defaultShopifyProductType := "",
    defaultLocationId := none, orderIdentifierStart := "BunjangOrder-" }

-- The scenario feed row of the spec: id 123, name X, price 10000, SELLING,
-- updated at 2024-01-01T00:00:00Z (1704067200000 ms).
def row123 : RawRow :=
  { pid := "123", name := "X", description := "", quantity := some 1,
    price := some 10000, shippingFee := some 0, condition := "", saleStatus := "SELLING",
    keywords := "", images := none, categoryId := "", categoryName := "",
    brandId := "", optionsRaw := none, uid := "",
    updatedAt := .valid 1704067200000, createdAt := .absent }

-- Same row with quantity 0 (claim C2).
def rowQty0 : RawRow := { row123 with quantity := some 0 }

-- Same row with an unparsable quantity cell (claim C10).
def rowQtyNaN : RawRow := { row123 with quantity := none }

-- Same row with a present but unparsable created-at cell (claim C6): every
-- field the claim lists as required is present and well formed.
def rowBadCreatedAt : RawRow := { row123 with createdAt := .invalid }

-- Same row with a negative price (claims C2 and C6 boundary).
def rowNegPrice : RawRow := { row123 with price := some (-5) }

-- A sync environment in which every remote endpoint answers successfully
-- and the tag lookup finds nothing, so the record takes the create path.
def envOk : SyncEnv :=
  { rate := .ok (3/4000),
    tagLookup := fun _ => .ok none,
    variantQuery := fun _ => .ok none,
    updateProduct := fun _ => .ok { id := some "gid-upd", handle := "h" },
    updateVariant := fun _ => .ok (),
    updateInventory := fun _ _ _ => .ok (),
    createProduct := fun _ _ => .ok { id := some "gid-new", handle := "h" },
    appendMedia := fun _ _ => .ok () }

-- A sync environment whose product create and update calls fail.
def envCreateFails : SyncEnv :=
  { envOk with
    createProduct := fun _ _ => .error "boom",
    updateProduct := fun _ => .error "boom" }

-- A previously synced, stale persisted record: stored last-source-updated
-- timestamp 1000, while the feed row below carries the newer timestamp 2000.
def staleSyncedDoc : SyncedDoc :=
  { bunjangPid := "123", syncStatus := "SYNCED", bunjangUpdatedAt := some 1000,
    bunjangProductName := some "X", bunjangOriginalPriceKrw := some 10000,
    bunjangOriginalShippingFeeKrw := some 0, shopifyGid := some "gid-old",
    shopifyProductId := some "old", shopifyHandle := some "h",
    shopifyListedPriceUsd := some "11.00", syncAttemptCount := 0, syncSuccessCount := 1,
    syncErrorMessage := none, createdAt := some 0, lastSyncAttemptAt := some 0,
    lastSuccessfulSyncAt := some 0 }

def defaultBunjangProduct : BunjangProduct :=
  { pid := "", name := "", description := "", quantity := none, price := none,
    shippingFee := none, condition := "", saleStatus := "", keywords := [],
    images := none, categoryId := "", categoryName := "", brandId := "",
    optionsRaw := none, uid := "", updatedAt := none, createdAt := none }

-- The record a fixture row normalizes to (under cfg0).
def prodOf (row : RawRow) : BunjangProduct :=
  (processCatalogRow cfg0 row).getD defaultBunjangProduct

def emptyStore : SyncStore := fun _ => none

-- Order-side fixtures.

-- Environment for the not-found scenario of claim C7: the Bunjang product
-- lookup finds nothing and order updates succeed.
def envOrderNotFound : OrderEnv :=
  { getDetails := fun _ => none,
    createOrder := fun _ => .ok { id := some 777 },
    updateOrder := fun _ => .ok () }

-- Environment for claim C3: the lookup returns a product priced 10000 KRW
-- with a 3000 KRW shipping fee, and order creation succeeds with id 777.
def envOrder3000 : OrderEnv :=
  { getDetails := fun _ => some { price := .num 10000, shippingFee := .num 3000 },
    createOrder := fun _ => .ok { id := some 777 },
    updateOrder := fun _ => .ok () }

def orderBJ555 : ShopifyOrder :=
  { id := some 1001, adminGraphqlApiId := some "gid-order-1001",
    lineItems := [ { sku := some "BJ-555" } ] }

-- Theorems.

/-- C1: for every numeric source amount at least 0 and valid rate above 0,
calculateShopifyPriceUsd returns the source amount times the rate times
(1 + markupPercent/100) plus the handling fee, rounded to 2 decimal places
and rendered as a fixed-point decimal string. -/
theorem calculateShopifyPriceUsd_matches_formula (cfg : Config) (a r : ℚ)
    (ha : 0 ≤ a) (hr : 0 < r) :
    (calculateShopifyPriceUsd cfg (.ok r) (some a)).1 =
      .ok (jsToFixed2 (a * r * (1 + cfg.markupPercentage / 100) + cfg.handlingFeeUsd)) := by
  have h1 : ¬ (a < 0) := not_lt.mpr ha
  have h2 : ¬ (r ≤ 0) := not_le.mpr hr
  simp only [calculateShopifyPriceUsd, convertKrwToUsd, if_neg h1, if_neg h2]

/-- C1 witness: the spec scenario, source price 10000 KRW, rate 0.00075,
markup 20 percent, handling fee 2 USD, gives the string 11.00. -/
theorem calculateShopifyPriceUsd_matches_formula_witness :
    (calculateShopifyPriceUsd cfg0 (.ok (3/4000)) (some 10000)).1 = .ok "11.00" := by
  rw [calculateShopifyPriceUsd_matches_formula cfg0 10000 (3/4000) (by norm_num) (by norm_num)]
  exact congrArg Except.ok (by with_unfolding_all decide)

-- Helper: the normalizer returns none exactly when the explicit code-side
-- drop condition holds.
theorem processCatalogRow_eq_none_iff (cfg : Config) (row : RawRow) :
    processCatalogRow cfg row = none ↔ codeDropCondition cfg row = true := by
  simp only [processCatalogRow, codeDropCondition]
  split_ifs with h1 h2 h3 h4 <;>
    simp_all [Bool.or_eq_true, Bool.and_eq_true, bne_iff_ne, beq_iff_eq,
      decide_eq_true_iff, DateVal.toOption, not_or, List.isEmpty_iff,
      List.elem_iff, Bool.not_eq_true] <;> tauto

-- Helper: acceptance is the complement of the code drop condition.
theorem processCatalogRow_isSome_iff (cfg : Config) (row : RawRow) :
    (processCatalogRow cfg row).isSome = true ↔ codeDropCondition cfg row = false := by
  have h := processCatalogRow_eq_none_iff cfg row
  cases hc : codeDropCondition cfg row <;> cases ho : processCatalogRow cfg row <;>
    simp_all [Option.isSome]

-- Helper: an accepted record keeps the parsed quantity of its row.
theorem processCatalogRow_quantity (cfg : Config) (row : RawRow) (p : BunjangProduct)
    (h : processCatalogRow cfg row = some p) : p.quantity = row.quantity := by
  simp only [processCatalogRow] at h
  split_ifs at h <;> simp_all <;> subst h <;> rfl

/-- C6 (amended): the normalizer drops a row exactly when: the sale-status is
not SELLING; the external ID or name is empty, the price is not numeric, or
the last-updated timestamp is null after date handling, where a date-parse
failure of either timestamp cell nulls both timestamps; the category
allow-list is non-empty, the row category is non-empty and absent from the
list; or the price, or the quantity when it parses, is negative.  Otherwise
it returns a populated catalog record. -/
theorem c6_normalizer_drop_iff (cfg : Config) (row : RawRow) :
    processCatalogRow cfg row = none ↔ codeDropCondition cfg row = true :=
  processCatalogRow_eq_none_iff cfg row

/-- C6 counterexample: a row whose claimed required fields are all present
and well formed, including a valid last-updated timestamp, but whose
created-at cell is present and unparsable, satisfies none of the claimed
drop conditions yet is dropped by the code. -/
theorem c6_counterexample :
    specDropCondition cfg0 rowBadCreatedAt = false ∧
    processCatalogRow cfg0 rowBadCreatedAt = none := by
  constructor
  · with_unfolding_all decide
  · with_unfolding_all rfl

/-- C2 counterexample: the quantity 0 feed row is accepted by the normalizer,
but its destination variant receives inventory policy CONTINUE, which allows
backorders; it does not receive a policy that denies backorders. -/
theorem c2_counterexample :
    ((processCatalogRow cfg0 rowQty0).map
       (fun p => (transformBunjangRowToShopifyInput cfg0 p "11.00" 0).variantData.inventoryPolicy))
      = some "CONTINUE" ∧
    inventoryPolicyDeniesBackorder "CONTINUE" = false := by
  exact ⟨by with_unfolding_all rfl, by decide⟩

/-- C2 (amended): a feed row with quantity 0 is accepted whenever the other
filters pass (the quantity clause of the drop condition cannot fire at 0),
its destination variant receives the backorder-allowing inventory policy
CONTINUE (the restrictive DENY policy is applied only to positive
quantities), and a row with negative price is dropped. -/
theorem c2_quantity_zero_amended (cfg : Config) (row : RawRow) (p : BunjangProduct)
    (priceStr : String) (now : Int) :
    (row.quantity = some 0 →
      ((processCatalogRow cfg row).isSome = true ↔ codeDropCondition cfg row = false)) ∧
    (processCatalogRow cfg row = some p → row.quantity = some 0 →
      (transformBunjangRowToShopifyInput cfg p priceStr now).variantData.inventoryPolicy
        = "CONTINUE") ∧
    (∀ q : ℚ, row.price = some q → q < 0 → processCatalogRow cfg row = none) := by
  refine ⟨fun _ => processCatalogRow_isSome_iff cfg row, ?_, ?_⟩
  · intro hsome hq
    have hpq : p.quantity = some 0 := (processCatalogRow_quantity cfg row p hsome).trans hq
    simp [transformBunjangRowToShopifyInput, hpq]
  · intro q hq hlt
    exact (processCatalogRow_eq_none_iff cfg row).mpr
      (by simp [codeDropCondition, hq, decide_eq_true_iff.mpr hlt])

/-- C2 witness: the quantity 0 spec row is concretely accepted with policy
CONTINUE and the negative-price row concretely dropped, via the amended
theorem. -/
theorem c2_quantity_zero_amended_witness :
    (processCatalogRow cfg0 rowQty0).isSome = true ∧
    (transformBunjangRowToShopifyInput cfg0 (prodOf rowQty0) "11.00" 0).variantData.inventoryPolicy
      = "CONTINUE" ∧
    processCatalogRow cfg0 rowNegPrice = none := by
  have h := c2_quantity_zero_amended cfg0 rowQty0 (prodOf rowQty0) "11.00" 0
  have h2 := c2_quantity_zero_amended cfg0 rowNegPrice (prodOf rowNegPrice) "11.00" 0
  refine ⟨?_, ?_, ?_⟩
  · exact (h.1 (by with_unfolding_all rfl)).mpr (by with_unfolding_all decide)
  · exact h.2.1 (by with_unfolding_all rfl) (by with_unfolding_all rfl)
  · exact h2.2.2 (-5) (by with_unfolding_all rfl) (by norm_num)

/-- C10: a feed row whose quantity cell does not parse (NaN) is accepted
whenever the other filters pass (the negative-quantity drop applies only to
a parsed quantity), and the resulting variant is treated as quantity 0 with
the backorder-allowing inventory policy CONTINUE. -/
theorem c10_nan_quantity (cfg : Config) (row : RawRow) (p : BunjangProduct)
    (priceStr : String) (now : Int) :
    (row.quantity = none →
      ((processCatalogRow cfg row).isSome = true ↔ codeDropCondition cfg row = false)) ∧
    (processCatalogRow cfg row = some p → row.quantity = none →
      p.quantity = none ∧
      (transformBunjangRowToShopifyInput cfg p priceStr now).inventoryInfo.quantity = 0 ∧
      (transformBunjangRowToShopifyInput cfg p priceStr now).variantData.inventoryPolicy
        = "CONTINUE") := by
  refine ⟨fun _ => processCatalogRow_isSome_iff cfg row, ?_⟩
  intro hsome hq
  have hpq : p.quantity = none := (processCatalogRow_quantity cfg row p hsome).trans hq
  refine ⟨hpq, ?_, ?_⟩ <;> simp [transformBunjangRowToShopifyInput, hpq]

/-- C10 witness: the spec row with an unparsable quantity cell is concretely
accepted and mapped to quantity 0 with policy CONTINUE. -/
theorem c10_nan_quantity_witness :
    (processCatalogRow cfg0 rowQtyNaN).isSome = true ∧
    (prodOf rowQtyNaN).quantity = none ∧
    (transformBunjangRowToShopifyInput cfg0 (prodOf rowQtyNaN) "11.00" 0).inventoryInfo.quantity
      = 0 ∧
    (transformBunjangRowToShopifyInput cfg0 (prodOf rowQtyNaN) "11.00" 0).variantData.inventoryPolicy
      = "CONTINUE" := by
  have h := c10_nan_quantity cfg0 rowQtyNaN (prodOf rowQtyNaN) "11.00" 0
  have h2 := h.2 (by with_unfolding_all rfl) (by with_unfolding_all rfl)
  exact ⟨(h.1 (by with_unfolding_all rfl)).mpr (by with_unfolding_all decide),
         h2.1, h2.2.1, h2.2.2⟩

-- The feed record for PID 123 carrying a last-updated timestamp newer than
-- the one stored in staleSyncedDoc.
def prodNewer : BunjangProduct := { prodOf row123 with updatedAt := some 2000 }

/-- C4: evaluation of the code at the failing input.  The persisted record is
SYNCED with stored last-source-updated timestamp 1000, the incoming feed
record carries the newer timestamp 2000, and the force flag is off: per the
claim the record must not be skipped as unchanged (stored timestamp is not
at least the feed timestamp).  The code first overwrites the stored
timestamp with the feed timestamp inside the attempt upsert and then
compares, so the comparison is vacuously true and the record is skipped with
no remote call at all. -/
theorem c4_stale_record_still_skipped :
    (staleSyncedDoc.syncStatus = "SYNCED" ∧
     staleSyncedDoc.bunjangUpdatedAt = some 1000 ∧
     prodNewer.updatedAt = some 2000 ∧
     cfg0.forceResyncAll = false) ∧
    (syncBunjangProductToShopify cfg0 envOk 3000 prodNewer (some staleSyncedDoc)).result
      = "skipped_no_change" ∧
    (syncBunjangProductToShopify cfg0 envOk 3000 prodNewer (some staleSyncedDoc)).trace
      = [SyncEvent.attemptWrite] ∧
    (syncBunjangProductToShopify cfg0 envOk 3000 prodNewer (some staleSyncedDoc)).newDoc.bunjangUpdatedAt
      = some 2000 := by
  exact ⟨⟨rfl, rfl, by with_unfolding_all rfl, rfl⟩,
         by with_unfolding_all rfl, by with_unfolding_all rfl, by with_unfolding_all rfl⟩

-- Helper: every sync trace is the attempt write alone (the skip path) or the
-- attempt write, then remote calls, then one outcome write.
theorem sync_trace_shape (cfg : Config) (env : SyncEnv) (now : Int)
    (p : BunjangProduct) (store : Option SyncedDoc) :
    (syncBunjangProductToShopify cfg env now p store).trace = [SyncEvent.attemptWrite] ∨
    ∃ (names : List String) (st : String), (syncBunjangProductToShopify cfg env now p store).trace
      = SyncEvent.attemptWrite :: names.map SyncEvent.remoteCall
          ++ [SyncEvent.outcomeWrite st] := by
  simp only [syncBunjangProductToShopify]
  split
  · exact Or.inl rfl
  · split
    · exact Or.inr ⟨(resolveShopifyGid env (upsertAttempt now p store).shopifyGid p.pid).2 ++
        (syncTryPhase cfg env now p
          (resolveShopifyGid env (upsertAttempt now p store).shopifyGid p.pid).1).2,
        "SYNCED", rfl⟩
    · exact Or.inr ⟨(resolveShopifyGid env (upsertAttempt now p store).shopifyGid p.pid).2 ++
        (syncTryPhase cfg env now p
          (resolveShopifyGid env (upsertAttempt now p store).shopifyGid p.pid).1).2,
        "ERROR", rfl⟩

-- Helper: positions in a block of remote calls followed by one outcome
-- write.
theorem remote_block_get (names : List String) (st : String) :
    ∀ i x, ((names.map SyncEvent.remoteCall) ++ [SyncEvent.outcomeWrite st]).get? i = some x →
      (x = SyncEvent.outcomeWrite st ∧ i = names.length) ∨
      (∃ n, x = SyncEvent.remoteCall n ∧ i < names.length) := by
  induction names with
  | nil =>
    intro i x h
    cases i with
    | zero => simp_all
    | succ k => simp at h
  | cons a as ih =>
    intro i x h
    cases i with
    | zero =>
      simp only [List.map_cons, List.cons_append, List.get?_cons_zero] at h
      right; exact ⟨a, by simp_all, by simp⟩
    | succ k =>
      simp only [List.map_cons, List.cons_append, List.get?_cons_succ] at h
      rcases ih k x h with ⟨hx, hk⟩ | ⟨n, hx, hk⟩
      · left; exact ⟨hx, by simp [hk]⟩
      · right; exact ⟨n, hx, by simpa using Nat.succ_lt_succ hk⟩

/-- C9: in every record sync the attempt-record write is the first event and
happens unconditionally (an absent record is created with status PENDING,
an existing one has its attempt counter incremented and snapshot fields
updated); every remote call for the record happens strictly after the
attempt write, and every outcome-record write happens strictly after every
remote call. -/
theorem c9_attempt_before_remote_before_outcome (cfg : Config) (env : SyncEnv) (now : Int)
    (p : BunjangProduct) (store : Option SyncedDoc) (d : SyncedDoc) :
    ((syncBunjangProductToShopify cfg env now p store).trace.get? 0
       = some SyncEvent.attemptWrite) ∧
    (∀ i name, (syncBunjangProductToShopify cfg env now p store).trace.get? i
       = some (SyncEvent.remoteCall name) → 0 < i) ∧
    (∀ i j st name,
       (syncBunjangProductToShopify cfg env now p store).trace.get? i
         = some (SyncEvent.outcomeWrite st) →
       (syncBunjangProductToShopify cfg env now p store).trace.get? j
         = some (SyncEvent.remoteCall name) → j < i) ∧
    ((upsertAttempt now p none).syncStatus = "PENDING") ∧
    ((upsertAttempt now p (some d)).syncAttemptCount = d.syncAttemptCount + 1) ∧
    ((upsertAttempt now p (some d)).bunjangProductName = some p.name) := by
  rcases sync_trace_shape cfg env now p store with h | ⟨names, st0, h⟩ <;> rw [h]
  · refine ⟨rfl, ?_, ?_, rfl, rfl, rfl⟩
    · intro i name hi
      cases i with
      | zero => simp at hi
      | succ k => simp at hi
    · intro i j st name hi hj
      cases i with
      | zero => simp at hi
      | succ k => simp at hi
  · refine ⟨rfl, ?_, ?_, rfl, rfl, rfl⟩
    · intro i name hi
      cases i with
      | zero => simp at hi
      | succ k => exact Nat.succ_pos k
    · intro i j st name hi hj
      cases i with
      | zero => simp at hi
      | succ k =>
        cases j with
        | zero => simp at hj
        | succ m =>
          rcases remote_block_get names st0 k _ hi with ⟨_, hk⟩ | ⟨n, hx, _⟩
          · rcases remote_block_get names st0 m _ hj with ⟨hx2, _⟩ | ⟨n2, hx2, hm⟩
            · cases hx2
            · omega
          · cases hx

/-- C9 witness: a concrete create-path run, whose trace is the attempt write,
then the tag lookup, exchange-rate and product-create remote calls, then the
SYNCED outcome write; the ordering facts are obtained from the ordering
theorem at indices 2 and 4. -/
theorem c9_attempt_before_remote_before_outcome_witness :
    (syncBunjangProductToShopify cfg0 envOk 0 prodNewer none).trace.get? 0
      = some SyncEvent.attemptWrite ∧
    (0 : Nat) < 2 ∧ (2 : Nat) < 4 ∧
    (upsertAttempt 0 prodNewer none).syncStatus = "PENDING" := by
  have h := c9_attempt_before_remote_before_outcome cfg0 envOk 0 prodNewer none staleSyncedDoc
  refine ⟨h.1, ?_, ?_, h.2.2.2.1⟩
  · exact h.2.1 2 "getKrwToUsdRate" (by with_unfolding_all rfl)
  · exact h.2.2.1 4 2 "SYNCED" "getKrwToUsdRate"
      (by with_unfolding_all rfl) (by with_unfolding_all rfl)

-- Helper: every record sync reports one of the three reachable statuses.
theorem sync_result_cases (cfg : Config) (env : SyncEnv) (now : Int)
    (p : BunjangProduct) (store : Option SyncedDoc) :
    (syncBunjangProductToShopify cfg env now p store).result = "skipped_no_change" ∨
    (syncBunjangProductToShopify cfg env now p store).result = "success" ∨
    (syncBunjangProductToShopify cfg env now p store).result = "error" := by
  simp only [syncBunjangProductToShopify]
  split
  · exact Or.inl rfl
  · split
    · exact Or.inr (Or.inl rfl)
    · exact Or.inr (Or.inr rfl)

def countsTotal (c : SyncCounts) : Nat :=
  c.successes + c.errors + c.skippedFilter + c.skippedNoChange

-- Helper: tallying a settled record result bumps exactly one counter.
theorem tally_total (status : String) (c : SyncCounts)
    (h : status = "skipped_no_change" ∨ status = "success" ∨ status = "error") :
    countsTotal (tallyResult status c) = countsTotal c + 1 := by
  rcases h with h | h | h <;> subst h <;> simp [tallyResult, countsTotal] <;> omega

-- Helper: the chunk loop settles every record into exactly one counter.
theorem syncProducts_total (cfg : Config) (env : String → SyncEnv) (now : Int) :
    ∀ (ps : List BunjangProduct) (store : SyncStore),
      countsTotal (syncProducts cfg env now ps store).1 = ps.length := by
  intro ps
  induction ps with
  | nil => intro store; rfl
  | cons p rest ih =>
    intro store
    simp only [syncProducts]
    rw [tally_total _ _ (sync_result_cases cfg (env p.pid) now p (store p.pid)), ih]
    simp

-- Helper: a record sync that reports an error records ERROR on the document.
theorem sync_error_records_ERROR (cfg : Config) (env : SyncEnv) (now : Int)
    (p : BunjangProduct) (store : Option SyncedDoc)
    (h : (syncBunjangProductToShopify cfg env now p store).result = "error") :
    (syncBunjangProductToShopify cfg env now p store).newDoc.syncStatus = "ERROR" := by
  revert h
  simp only [syncBunjangProductToShopify]
  split
  · intro h; simp at h
  · split
    · intro h; simp at h
    · intro _; rfl

/-- C8: for every batch, the summary reports the count of valid records and
every valid record settles into exactly one of the success, error,
filter-skip or unchanged-skip counters (no batch-level abort); a record sync
that reports an error records ERROR on its document while the loop
continues; and a batch with zero valid records after filtering completes as
a successful no-op summary with all processing counts zero. -/
theorem c8_batch_failure_isolation (cfg : Config) (env : String → SyncEnv) (now : Int)
    (rows : List RawRow) (store : SyncStore) (env1 : SyncEnv)
    (p : BunjangProduct) (st : Option SyncedDoc) :
    ((fetchAndProcessBunjangCatalogCore cfg env now rows store).1.validProductsToProcess
       = (rows.filterMap (processCatalogRow cfg)).length ∧
     (fetchAndProcessBunjangCatalogCore cfg env now rows store).1.successfullyProcessed
       + (fetchAndProcessBunjangCatalogCore cfg env now rows store).1.errors
       + (fetchAndProcessBunjangCatalogCore cfg env now rows store).1.skippedByFilter
       + (fetchAndProcessBunjangCatalogCore cfg env now rows store).1.skippedNoChange
       = (fetchAndProcessBunjangCatalogCore cfg env now rows store).1.validProductsToProcess ∧
     (fetchAndProcessBunjangCatalogCore cfg env now rows store).1.totalOriginalCsvRows
       = rows.length) ∧
    ((rows.filterMap (processCatalogRow cfg)) = [] →
      (fetchAndProcessBunjangCatalogCore cfg env now rows store).1 =
        { totalOriginalCsvRows := rows.length, validProductsToProcess := 0,
          successfullyProcessed := 0, errors := 0, skippedByFilter := 0,
          skippedNoChange := 0 }) ∧
    ((syncBunjangProductToShopify cfg env1 now p st).result = "error" →
      (syncBunjangProductToShopify cfg env1 now p st).newDoc.syncStatus = "ERROR") := by
  refine ⟨?_, ?_, sync_error_records_ERROR cfg env1 now p st⟩
  · simp only [fetchAndProcessBunjangCatalogCore]
    split
    · rename_i hemp
      rw [List.isEmpty_iff] at hemp
      refine ⟨by simp [hemp], by simp, rfl⟩
    · have h := syncProducts_total cfg env now (rows.filterMap (processCatalogRow cfg)) store
      simp only [countsTotal] at h
      exact ⟨rfl, by simpa using h, rfl⟩
  · intro hempty
    simp only [fetchAndProcessBunjangCatalogCore, hempty]
    simp

/-- C8 witness: a one-row batch whose remote create fails yields one error
and one valid record in the summary; the zero-valid batch built from the
negative-price row yields the all-zero no-op summary; and the failing
record sync concretely records ERROR. -/
theorem c8_batch_failure_isolation_witness :
    ((fetchAndProcessBunjangCatalogCore cfg0 (fun _ => envCreateFails) 0 [row123] emptyStore).1.successfullyProcessed
       + (fetchAndProcessBunjangCatalogCore cfg0 (fun _ => envCreateFails) 0 [row123] emptyStore).1.errors
       + (fetchAndProcessBunjangCatalogCore cfg0 (fun _ => envCreateFails) 0 [row123] emptyStore).1.skippedByFilter
       + (fetchAndProcessBunjangCatalogCore cfg0 (fun _ => envCreateFails) 0 [row123] emptyStore).1.skippedNoChange
       = 1) ∧
    (fetchAndProcessBunjangCatalogCore cfg0 (fun _ => envCreateFails) 0 [rowNegPrice] emptyStore).1 =
      { totalOriginalCsvRows := 1, validProductsToProcess := 0,
        successfullyProcessed := 0, errors := 0, skippedByFilter := 0, skippedNoChange := 0 } ∧
    (syncBunjangProductToShopify cfg0 envCreateFails 0 (prodOf row123) none).newDoc.syncStatus
      = "ERROR" := by
  have h1 := c8_batch_failure_isolation cfg0 (fun _ => envCreateFails) 0 [row123] emptyStore
    envCreateFails (prodOf row123) none
  have h2 := c8_batch_failure_isolation cfg0 (fun _ => envCreateFails) 0 [rowNegPrice] emptyStore
    envCreateFails (prodOf row123) none
  refine ⟨?_, ?_, ?_⟩
  · exact h1.1.2.1.trans (h1.1.1.trans (by with_unfolding_all rfl))
  · exact h2.2.1 (by with_unfolding_all rfl)
  · exact h1.2.2 (by with_unfolding_all rfl)

-- Helper: the retry loop only appends to the accumulated delay list.
theorem goRetry_delays_extend (env : Nat → AttemptOutcome) (rand : Nat → ℚ)
    (maxR : Nat) (init : ℚ) :
    ∀ (fuel attempt : Nat) (acc : List ℚ), ∃ rest,
      (goShopifyRetry env rand maxR init fuel attempt acc).delays = acc ++ rest := by
  intro fuel
  induction fuel with
  | zero => intro attempt acc; exact ⟨[], by simp [goShopifyRetry]⟩
  | succ f ih =>
    intro attempt acc
    simp only [goShopifyRetry]
    split
    · exact ⟨[], by simp⟩
    · exact ⟨[], by simp⟩
    · exact ⟨[], by simp⟩
    · exact ⟨[], by simp⟩
    · rename_i e heq
      split
      · rcases ih (attempt + 1) (acc ++ [computeRetryDelay init attempt (rand attempt) e])
          with ⟨rest, hr⟩
        exact ⟨computeRetryDelay init attempt (rand attempt) e :: rest, by rw [hr]; simp⟩
      · exact ⟨[], by simp⟩

/-- C5: the retry classification accepts exactly status 429, a throttled
message marker, or any 5xx status; a throttled response carrying a
retry-after of 5 seconds forces the computed delay to at least 5500 ms; the
delay grows from the base initialDelay times 2 to the attempt, jittered and
floored at 1000 ms; a response classified non-retryable such as a 404 (and
any other non-throttled 4xx other than 429) terminates immediately as fatal
on the first attempt with zero retry delays; and when the first attempt is
retryable and attempts remain, the first recorded delay is the computed
backoff delay for attempt 0. -/
theorem c5_retry_classification_and_delays :
    (∀ e : GraphqlQueryErr, retryClassify e = true ↔
       (e.statusCode = some 429 ∨ strContains e.message.toLower "throttled" = true ∨
        ∃ s, e.statusCode = some s ∧ 500 ≤ s ∧ s ≤ 599)) ∧
    (∀ (init : ℚ) (attempt : Nat) (r : ℚ) (e : GraphqlQueryErr),
       isThrottledErr e = true → e.retryAfterSeconds = some 5 →
       (5500 : ℚ) ≤ computeRetryDelay init attempt r e) ∧
    (∀ (init : ℚ) (attempt : Nat) (r : ℚ) (e : GraphqlQueryErr),
       e.retryAfterSeconds = none →
       computeRetryDelay init attempt r e
         = max 1000 (((jsRound (init * 2 ^ attempt
             + init * 2 ^ attempt * (3/10) * (r * 2 - 1))) : ℤ) : ℚ)) ∧
    (∀ (env : Nat → AttemptOutcome) (rand : Nat → ℚ) (maxR : Nat) (init : ℚ)
       (e : GraphqlQueryErr) (s : Nat),
       env 0 = .gqlError e → e.statusCode = some s → 400 ≤ s → s < 500 → s ≠ 429 →
       strContains e.message.toLower "throttled" = false →
       (shopifyGraphqlRequestRun env rand maxR init).delays = [] ∧
       ∃ reason, (shopifyGraphqlRequestRun env rand maxR init).outcome
         = RetryOutcome.fatal reason 0) ∧
    (∀ (env : Nat → AttemptOutcome) (rand : Nat → ℚ) (maxR : Nat) (init : ℚ)
       (e : GraphqlQueryErr),
       env 0 = .gqlError e → retryClassify e = true → 0 < maxR →
       (shopifyGraphqlRequestRun env rand maxR init).delays.head?
         = some (computeRetryDelay init 0 (rand 0) e)) := by
  refine ⟨?_, ?_, ?_, ?_, ?_⟩
  · intro e
    rcases e with ⟨sc, msg, ra⟩
    cases sc with
    | none => simp [retryClassify, isThrottledErr, isServerErr]
    | some s =>
      simp [retryClassify, isThrottledErr, isServerErr, beq_iff_eq]
      tauto
  · intro init attempt r e hth hra
    simp only [computeRetryDelay, hth, hra, if_true]
    refine le_trans ?_ (le_max_right _ _)
    norm_num
  · intro init attempt r e hra
    simp only [computeRetryDelay, hra]
    split <;> rfl
  · intro env rand maxR init e s henv hsc h400 h500 hne hmk
    have hcl : retryClassify e = false := by
      simp [retryClassify, isThrottledErr, isServerErr, hsc, hmk, beq_iff_eq]
      omega
    unfold shopifyGraphqlRequestRun
    simp only [goShopifyRetry, henv]
    rw [if_neg (by simp [hcl])]
    exact ⟨rfl, _, rfl⟩
  · intro env rand maxR init e henv hcl hmax
    unfold shopifyGraphqlRequestRun
    simp only [goShopifyRetry, henv]
    rw [if_pos ⟨hmax, hcl⟩]
    rcases goRetry_delays_extend env rand maxR init maxR 1
      [computeRetryDelay init 0 (rand 0) e] with ⟨rest, hr⟩
    simp only [Nat.zero_add, List.nil_append]
    rw [hr]
    rfl

-- Retry fixtures: a throttled 429 with a retry-after of 5 seconds, and a
-- plain 404.
def gqlErr429 : GraphqlQueryErr :=
  { statusCode := some 429, message := "Throttled", retryAfterSeconds := some 5 }

def gqlErr404 : GraphqlQueryErr :=
  { statusCode := some 404, message := "not found", retryAfterSeconds := none }

/-- C5 witness: the 429 with retry-after 5 is classified retryable and its
computed delay is at least 5500 ms; the 404 terminates on attempt 0 with no
retry delays. -/
theorem c5_retry_classification_and_delays_witness :
    retryClassify gqlErr429 = true ∧
    (5500 : ℚ) ≤ computeRetryDelay 2000 0 (1/2) gqlErr429 ∧
    (shopifyGraphqlRequestRun (fun _ => .gqlError gqlErr404) (fun _ => 1/2) 3 2000).delays = [] ∧
    (∃ reason, (shopifyGraphqlRequestRun (fun _ => .gqlError gqlErr404) (fun _ => 1/2) 3 2000).outcome
       = RetryOutcome.fatal reason 0) := by
  have h := c5_retry_classification_and_delays
  have h404 := h.2.2.2.1 (fun _ => .gqlError gqlErr404) (fun _ => 1/2) 3 2000 gqlErr404 404
    rfl rfl (by decide) (by decide) (by decide) (by with_unfolding_all decide)
  exact ⟨(h.1 gqlErr429).mpr (Or.inl rfl),
         h.2.1 2000 0 (1/2) gqlErr429 (by with_unfolding_all decide) rfl,
         h404.1, h404.2⟩

-- Helper: the item loop preserves the invariant that the overall success
-- flag is set exactly when the created-order id list is nonempty (the code
-- sets the flag and pushes the id together, lines 86-87).
theorem processOrderItems_flag_iff (env : OrderEnv) (ident gid : String) :
    ∀ (items : List ShopifyLineItem) (flag : Bool) (ids : List String)
      (calls : List OrderUpdateInput) (creates : List BunjangOrderPayload)
      (r : Bool × List String × List OrderUpdateInput × List BunjangOrderPayload),
      processOrderItems env ident gid items flag ids calls creates = .ok r →
      (flag = true ↔ ids ≠ []) → (r.1 = true ↔ r.2.1 ≠ []) := by
  intro items
  induction items with
  | nil =>
    intro flag ids calls creates r h hinv
    simp only [processOrderItems] at h
    cases h
    exact hinv
  | cons item rest ih =>
    intro flag ids calls creates r h hinv
    simp only [processOrderItems] at h
    split at h
    · exact ih _ _ _ _ _ h hinv
    · split at h
      · exact ih _ _ _ _ _ h hinv
      · split at h
        · cases h
        · rename_i step heq
          refine ih _ _ _ _ _ h ?_
          rcases hs : step.1 with _ | bid
          · simpa [hs] using hinv
          · simp [hs]

/-- C7: whenever the order reconciler returns a result, the overall success
flag is set if and only if at least one linked line item produced a source
order; and for an order whose single linked item has no matching source
product (lookup returns null) while order tag updates succeed, no exception
propagates, the result is failure with an empty source-order-id list, and
the destination order receives an error tag naming the source product
id. -/
theorem c7_overall_success_iff (cfg : Config) (env : OrderEnv) (order : ShopifyOrder)
    (oid : Int) (gid0 : String) (item : ShopifyLineItem) (sku : String) :
    (∀ res, processShopifyOrderForBunjang cfg env order = .ok res →
       (res.success = true ↔ res.bunjangOrderIds ≠ [])) ∧
    (order.id = some oid → order.adminGraphqlApiId = some gid0 →
     order.lineItems = [item] → item.sku = some sku → sku.startsWith "BJ-" = true →
     env.getDetails (sku.drop 3) = none → (∀ u, env.updateOrder u = .ok ()) →
     ∃ res2, processShopifyOrderForBunjang cfg env order = .ok res2 ∧
       res2.success = false ∧ res2.bunjangOrderIds = [] ∧
       ∃ u ∈ res2.orderUpdateCalls, ("PID-" ++ sku.drop 3 ++ "-NotFound") ∈ u.tags) := by
  constructor
  · intro res h
    unfold processShopifyOrderForBunjang at h
    split at h
    · split at h
      · cases h
      · split at h
        · cases h
        · rename_i r heq
          cases h
          exact processOrderItems_flag_iff env _ _ order.lineItems false [] [] [] r heq
            (by simp)
    · cases h
  · intro hoid hgid hitems hsku hbj hdet hupd
    refine ⟨{ success := false, bunjangOrderIds := [],
              orderUpdateCalls :=
                [{ id := gid0,
                   tags := [cfg.orderIdentifierStart ++ toString oid ++ "_Error",
                            "PID-" ++ sku.drop 3 ++ "-NotFound"],
                   metafields := [] }],
              createOrderCalls := [] }, ?_, rfl, rfl, ?_⟩
    · simp only [processShopifyOrderForBunjang, hoid, hgid, hitems, List.isEmpty_cons,
        Bool.false_eq_true, if_false, processOrderItems, hsku, hbj, Bool.not_true,
        processOneLinkedItem, hdet, hupd]
      simp
    · simp

/-- C7 witness: the spec scenario: an order with the single line item of SKU
BJ-555 and a missing source product yields failure, no source order ids, and
an error tag referencing product 555. -/
theorem c7_overall_success_iff_witness :
    ∃ res2, processShopifyOrderForBunjang cfg0 envOrderNotFound orderBJ555 = .ok res2 ∧
      res2.success = false ∧ res2.bunjangOrderIds = [] ∧
      ∃ u ∈ res2.orderUpdateCalls, ("PID-" ++ "BJ-555".drop 3 ++ "-NotFound") ∈ u.tags := by
  have h := c7_overall_success_iff cfg0 envOrderNotFound orderBJ555 1001 "gid-order-1001"
    { sku := some "BJ-555" } "BJ-555"
  exact h.2 rfl rfl rfl rfl (by with_unfolding_all decide) rfl (fun u => rfl)

/-- C3: evaluation of the code at the failing input.  The source product
lookup returns price 10000 KRW with shipping fee 3000 KRW.  The order sent
to the source API carries deliveryPrice 0 as claimed, but the
actual-shipping-fee metafield written on the destination order holds 0 as
well, not the fetched 3000: the mapper already zeroes deliveryPrice, and the
order service reads that zeroed field as the actual fee. -/
theorem c3_actual_shipping_fee_metafield_is_zero :
    envOrder3000.getDetails "555"
      = some { price := JsVal.num 10000, shippingFee := JsVal.num 3000 } ∧
    processShopifyOrderForBunjang cfg0 envOrder3000 orderBJ555 =
      .ok { success := true, bunjangOrderIds := ["777"],
            orderUpdateCalls :=
              [{ id := "gid-order-1001",
                 tags := ["BunjangOrderPlaced", "BunjangOrder-1001", "BunjangOrderID-777"],
                 metafields :=
                   [{ mfNamespace := "bunjang", key := "order_id",
                      value := "777", mfType := "single_line_text_field" },
                    { mfNamespace := "bunjang", key := "ordered_pid",
                      value := "555", mfType := "single_line_text_field" },
                    { mfNamespace := "bunjang", key := "ordered_item_price_krw",
                      value := "10000", mfType := "number_integer" },
                    { mfNamespace := "bunjang", key := "api_sent_shipping_fee_krw",
                      value := "0", mfType := "number_integer" },
                    { mfNamespace := "bunjang", key := "actual_bunjang_shipping_fee_krw",
                      value := "0", mfType := "number_integer" }] }],
            createOrderCalls := [{ product := { id := some 555, price := 10000 },
                                   deliveryPrice := 0 }] } := by
  exact ⟨rfl, by with_unfolding_all rfl⟩
